import Mathlib

/-!
Shallow embedding of the presence service of `react-native-firebase-presence`
(`src/PresenceService.ts`, `src/utils/firebase.ts`, `src/types/index.ts`).

Modelling conventions:
* Firebase handles (`firebaseApp`, `database`, `auth`, `userRef`, `connectedRef`)
  are `any`-typed values used only for truthiness checks and as capability
  tokens in the source; they are modelled as `Bool` ("a truthy handle is
  present").
* Store interactions (`set`, `onDisconnect().set`, `onDisconnect().cancel`,
  listener notification) are recorded as an emitted `Action` list; the
  success or failure of each awaited store round-trip is an input
  (`WriteOutcomes`), since it is decided by the external store.
* JavaScript `async` semantics: a `throw` inside an `async` function rejects
  the promise the call returns; it never propagates synchronously to the
  caller.  The constructor model below reflects this: `new PresenceService(c)`
  itself cannot throw, and `_initialize`'s validation error becomes the
  settled (rejected) value of the memoized initialization promise.
* Timestamps are `Nat`; the server-timestamp sentinel is an always-`true`
  flag on the written record (the client never inspects it).
-/

namespace Presence

/-- `PresenceError` from `src/types/index.ts`: message, machine-readable code,
and whether an original (wrapped) error was attached. -/
structure PresenceError where
  message : String
  code : String
  hasOriginalError : Bool
  deriving Repr, DecidableEq

/-- Constructor argument `PresenceConfig` (`src/types/index.ts`): every field
optional.  Handle fields are truthiness flags; `false`/`none` means the field
is absent or falsy, so the object spread in the constructor leaves the
default in place only for the non-handle fields (the defaults object carries
no handle entries). -/
structure PresenceConfigInput where
  firebaseApp : Bool
  database : Bool
  auth : Bool
  databasePath : Option String
  offlineTimeout : Option Nat
  retryInterval : Option Nat
  maxRetries : Option Nat
  debug : Option Bool
  customStates : Option (List String)
  autoSetAway : Option Bool
  awayTimeout : Option Nat
  deriving Repr, DecidableEq

/-- The fully defaulted configuration held in `this.config` after the spread
`{ databasePath: 'presence', ..., ...config }` in the constructor. -/
structure ResolvedConfig where
  firebaseApp : Bool
  database : Bool
  auth : Bool
  databasePath : String
  offlineTimeout : Nat
  retryInterval : Nat
  maxRetries : Nat
  debug : Bool
  customStates : List String
  autoSetAway : Bool
  awayTimeout : Nat
  deriving Repr, DecidableEq

/-- The default-merging spread performed by the `PresenceService` constructor. -/
def mergeDefaults (c : PresenceConfigInput) : ResolvedConfig where
  firebaseApp := c.firebaseApp
  database := c.database
  auth := c.auth
  databasePath := c.databasePath.getD "presence"
  offlineTimeout := c.offlineTimeout.getD 30000
  retryInterval := c.retryInterval.getD 1000
  maxRetries := c.maxRetries.getD 5
  debug := c.debug.getD false
  customStates := c.customStates.getD ["online", "offline", "away", "busy"]
  autoSetAway := c.autoSetAway.getD true
  awayTimeout := c.awayTimeout.getD 300000

namespace FirebaseValidator

/-- `FirebaseValidator.validateConfig` (`src/utils/firebase.ts`): checks the
three required handles in order and throws a `PresenceError` for the first
missing one. -/
def validateConfig (config : ResolvedConfig) : Except PresenceError Unit :=
  if !config.firebaseApp then
    .error ⟨"Firebase app is required", "MISSING_FIREBASE_APP", false⟩
  else if !config.database then
    .error ⟨"Firebase database is required", "MISSING_DATABASE", false⟩
  else if !config.auth then
    .error ⟨"Firebase auth is required", "MISSING_AUTH", false⟩
  else
    .ok ()

/-- `FirebaseValidator.createRetryDelay` (`src/utils/firebase.ts`):
`Math.min(baseDelay * Math.pow(2, attempt), 30000)`. -/
def createRetryDelay (attempt : Nat) (baseDelay : Nat) : Nat :=
  min (baseDelay * 2 ^ attempt) 30000

end FirebaseValidator

/-- Process-local `ConnectionStatus` (`src/types/index.ts`).  `lastConnected`
is the instant of the last observed transition to connected, `none` if never
connected. -/
structure ConnectionStatus where
  isConnected : Bool
  lastConnected : Option Nat
  retryCount : Nat
  deriving Repr, DecidableEq

/-- A `PresenceState` record as written to the store by `setPresenceState`:
`{ state, lastChanged: serverTimestamp(), uid, ...(customData && { customData }) }`.
`hasServerTimestamp` stands for the `lastChanged` sentinel. -/
structure PresenceRecord where
  state : String
  uid : String
  hasServerTimestamp : Bool
  customData : Option String
  deriving Repr, DecidableEq

/-- Externally visible side effects performed by the service. -/
inductive Action where
  /-- `notifyConnectionListeners()` with the given status snapshot. -/
  | notifyListeners (snapshot : ConnectionStatus)
  /-- `set(this.userRef, presenceData)` issued with the given record. -/
  | storeWrite (record : PresenceRecord)
  /-- `onDisconnect(this.userRef).set(record)` issued. -/
  | onDisconnectSet (record : PresenceRecord)
  /-- `onDisconnect(this.userRef).cancel()` issued. -/
  | onDisconnectCancel
  deriving Repr, DecidableEq

/-- Outcomes of the awaited store round-trips inside one `setPresenceState`
call, decided by the external store. -/
structure WriteOutcomes where
  setOk : Bool
  onDisconnectOk : Bool
  deriving Repr, DecidableEq

instance (ε α : Type) [DecidableEq ε] [DecidableEq α] : DecidableEq (Except ε α) := fun a b =>
  match a, b with
  | .ok x, .ok y =>
    if h : x = y then .isTrue (by rw [h]) else .isFalse (by simp [h])
  | .ok _, .error _ => .isFalse (by simp)
  | .error _, .ok _ => .isFalse (by simp)
  | .error e, .error f =>
    if h : e = f then .isTrue (by rw [h]) else .isFalse (by simp [h])

/-- The mutable fields of a `PresenceService` instance.  Subscription handles
(`connectedListener`, `authUnsubscribe`, `appStateUnsubscribe`) and store
references (`userRef`, `connectedRef`) are presence flags; timer handles hold
the delay a pending timer was armed with, `none` when no handle is set. -/
structure ServiceState where
  config : ResolvedConfig
  userRef : Bool
  connectedRef : Bool
  connectedListener : Bool
  connectionStatus : ConnectionStatus
  currentUser : Option String
  authSubscribed : Bool
  appStateSubscribed : Bool
  initialized : Bool
  initPromise : Option (Except PresenceError Unit)
  setupInProgress : Bool
  currentSetupUid : Option String
  retryTimeout : Option Nat
  awayTimeout : Option Nat
  currentPresenceState : String
  deriving Repr, DecidableEq

/-- `setPresenceState(state, customData?)` (`src/PresenceService.ts`):
silent no-op when `userRef` is null or no current user; `INVALID_STATE` when
the state is outside `config.customStates`; otherwise optimistically records
the state, issues the store write, and on `state === 'online'` additionally
issues the on-disconnect registration of the `offline` record.  Any failed
round-trip is rethrown as `SET_STATE_FAILED` wrapping the cause. -/
def setPresenceState (s : ServiceState) (state : String) (customData : Option String)
    (env : WriteOutcomes) : ServiceState × List Action × Except PresenceError Unit :=
  if !s.userRef then
    (s, [], .ok ())
  else
    match s.currentUser with
    | none => (s, [], .ok ())
    | some uid =>
      if !(s.config.customStates.contains state) then
        (s, [], .error ⟨"Invalid presence state: " ++ state, "INVALID_STATE", false⟩)
      else
        let s1 := { s with currentPresenceState := state }
        let presenceData : PresenceRecord := ⟨state, uid, true, customData⟩
        if !env.setOk then
          (s1, [.storeWrite presenceData],
            .error ⟨"Failed to set presence state", "SET_STATE_FAILED", true⟩)
        else if state == "online" then
          let offlineData : PresenceRecord := ⟨"offline", uid, true, customData⟩
          if !env.onDisconnectOk then
            (s1, [.storeWrite presenceData, .onDisconnectSet offlineData],
              .error ⟨"Failed to set presence state", "SET_STATE_FAILED", true⟩)
          else
            (s1, [.storeWrite presenceData, .onDisconnectSet offlineData], .ok ())
        else
          (s1, [.storeWrite presenceData], .ok ())

/-- `scheduleRetry()`: no-op when a retry timer is already pending or
`retryCount >= maxRetries`; otherwise arms the timer with
`createRetryDelay(retryCount, retryInterval)`. -/
def scheduleRetry (s : ServiceState) : ServiceState :=
  if s.retryTimeout.isSome || s.connectionStatus.retryCount ≥ s.config.maxRetries then
    s
  else
    let d := FirebaseValidator.createRetryDelay s.connectionStatus.retryCount s.config.retryInterval
    { s with retryTimeout := some d }

/-- `handleConnectionError(error)`: unconditionally increments `retryCount`,
then calls `scheduleRetry()`. -/
def handleConnectionError (s : ServiceState) : ServiceState :=
  scheduleRetry
    { s with connectionStatus :=
        { s.connectionStatus with retryCount := s.connectionStatus.retryCount + 1 } }

/-- `handleSetupError(error)`: increments `retryCount`, then schedules a retry
only while still below `maxRetries`. -/
def handleSetupError (s : ServiceState) : ServiceState :=
  let s1 := { s with connectionStatus :=
      { s.connectionStatus with retryCount := s.connectionStatus.retryCount + 1 } }
  if s1.connectionStatus.retryCount < s1.config.maxRetries then
    scheduleRetry s1
  else
    s1

/-- `setupAwayTimer()`: no-op when `autoSetAway` is false; otherwise arms the
away timer with `config.awayTimeout`. -/
def setupAwayTimer (s : ServiceState) : ServiceState :=
  if !s.config.autoSetAway then
    s
  else
    { s with awayTimeout := some s.config.awayTimeout }

/-- Body of the away timer's callback: if the current presence state is still
`'online'`, transitions to `'away'` via `setPresenceState` (un-awaited, result
dropped); otherwise does nothing. -/
def awayTimerFire (s : ServiceState) (env : WriteOutcomes) : ServiceState × List Action :=
  if s.currentPresenceState == "online" then
    let (s1, acts, _r) := setPresenceState s "away" none env
    (s1, acts)
  else
    (s, [])

/-- `handleConnectionChange(connected)`: records the new `isConnected`; on a
`true` observation sets `lastConnected` to now and resets `retryCount`, and if
the previous observation was `false` and a `userRef` exists, re-asserts the
current presence state (`this.currentPresenceState || 'online'`, un-awaited);
always notifies the connection listeners afterwards; on a `false` observation
finally calls `scheduleRetry()`.  The un-awaited `setPresenceState` call runs
synchronously up to its first `await`, so it issues its `set()` round-trip
(the head of its action list) and applies its in-memory update before
`notifyConnectionListeners()` runs, while anything after the awaited `set()`
resolves — the on-disconnect registration — is issued only after the notify. -/
def handleConnectionChange (s : ServiceState) (connected : Bool) (now : Nat)
    (env : WriteOutcomes) : ServiceState × List Action :=
  let wasConnected := s.connectionStatus.isConnected
  let s1 := { s with connectionStatus := { s.connectionStatus with isConnected := connected } }
  let (s2, syncActs, deferredActs) :=
    if connected then
      let s2 := { s1 with connectionStatus :=
          { s1.connectionStatus with lastConnected := some now, retryCount := 0 } }
      if !wasConnected && s2.userRef then
        let target := if s2.currentPresenceState == "" then "online" else s2.currentPresenceState
        let (s3, a, _r) := setPresenceState s2 target none env
        (s3, a.take 1, a.drop 1)
      else
        (s2, [], [])
    else
      (s1, [], [])
  let acts := syncActs ++ [Action.notifyListeners s2.connectionStatus] ++ deferredActs
  if !connected then
    (scheduleRetry s2, acts)
  else
    (s2, acts)

/-- `cleanup()`: unsubscribes the connected listener, cancels the
on-disconnect registration and drops `userRef`, drops `connectedRef`, clears
both timers, resets `isConnected` to false and `retryCount` to 0, and
notifies the connection listeners with the reset status. -/
def cleanup (s : ServiceState) : ServiceState × List Action :=
  let cancelActs := if s.userRef then [Action.onDisconnectCancel] else []
  let s1 := { s with
    connectedListener := false
    userRef := false
    connectedRef := false
    retryTimeout := none
    awayTimeout := none
    connectionStatus := { s.connectionStatus with isConnected := false, retryCount := 0 } }
  (s1, cancelActs ++ [Action.notifyListeners s1.connectionStatus])

/-- `setupPresence(uid)`: guarded by `setupInProgress`; throws
`DATABASE_UNAVAILABLE` when no database handle (caught: `userRef` nulled and
`handleSetupError` run); otherwise runs `cleanup()`, creates `userRef` and
`connectedRef`, attaches the connected listener, performs the initial
`setPresenceState('online')` and on its success arms the away timer; a
failure of the initial write takes the same catch path.  `setupInProgress` is
released in the `finally`. -/
def setupPresence (s : ServiceState) (_uid : String) (env : WriteOutcomes) :
    ServiceState × List Action :=
  if s.setupInProgress then
    (s, [])
  else
    let s0 := { s with setupInProgress := true }
    if !s0.config.database then
      ({ handleSetupError { s0 with userRef := false } with setupInProgress := false }, [])
    else
      let (s1, cleanActs) := cleanup s0
      let s2 := { s1 with userRef := true, connectedRef := true, connectedListener := true }
      if s2.userRef then
        let (s3, setActs, r) := setPresenceState s2 "online" none env
        match r with
        | .ok _ =>
          ({ setupAwayTimer s3 with setupInProgress := false }, cleanActs ++ setActs)
        | .error _ =>
          ({ handleSetupError { s3 with userRef := false } with setupInProgress := false },
            cleanActs ++ setActs)
      else
        ({ s2 with setupInProgress := false }, cleanActs)

/-- `handleAuthStateChange(user)`: a new user whose uid differs from
`currentSetupUid` becomes current and is set up; a null user clears the setup
target and, when a user was current, runs `cleanup()` and clears it. -/
def handleAuthStateChange (s : ServiceState) (user : Option String)
    (env : WriteOutcomes) : ServiceState × List Action :=
  match user with
  | some uid =>
    if s.currentSetupUid ≠ some uid then
      setupPresence { s with currentUser := some uid, currentSetupUid := some uid } uid env
    else
      (s, [])
  | none =>
    let s1 := { s with currentSetupUid := none }
    if s1.currentUser.isSome then
      let (s2, acts) := cleanup s1
      ({ s2 with currentUser := none }, acts)
    else
      (s1, [])

/-- `handleAppStateChange(appState)`: clears any pending away timer, then on
`'active'` sets `'online'` (un-awaited) and re-arms the away timer, and on
`'background'`/`'inactive'` sets `'offline'` (un-awaited). -/
def handleAppStateChange (s : ServiceState) (appState : String)
    (env : WriteOutcomes) : ServiceState × List Action :=
  let s0 := { s with awayTimeout := none }
  if appState == "active" then
    let (s1, acts, _r) := setPresenceState s0 "online" none env
    (setupAwayTimer s1, acts)
  else if appState == "background" || appState == "inactive" then
    let (s1, acts, _r) := setPresenceState s0 "offline" none env
    (s1, acts)
  else
    (s0, [])

/-- Body of the retry timer's callback: clears the timer handle and, when a
user is current and the store is still disconnected, re-runs `setupPresence`. -/
def retryTimerFire (s : ServiceState) (env : WriteOutcomes) : ServiceState × List Action :=
  let s0 := { s with retryTimeout := none }
  match s0.currentUser with
  | some uid =>
    if !s0.connectionStatus.isConnected then
      setupPresence s0 uid env
    else
      (s0, [])
  | none => (s0, [])

/-- `destroy()`: unsubscribes the auth and app-state listeners, runs
`cleanup()` (which notifies the still-registered listeners), then clears the
listener registrations and resets the initialization state. -/
def destroy (s : ServiceState) : ServiceState × List Action :=
  let s1 := { s with authSubscribed := false, appStateSubscribed := false }
  let (s2, acts) := cleanup s1
  ({ s2 with initialized := false, initPromise := none }, acts)

/-- A partial configuration passed to `updateConfig`: `some v` means the field
is present in the update object and overrides the current value under the
object spread (handles may be overridden with a falsy value). -/
structure ConfigUpdate where
  firebaseApp : Option Bool
  database : Option Bool
  auth : Option Bool
  databasePath : Option String
  offlineTimeout : Option Nat
  retryInterval : Option Nat
  maxRetries : Option Nat
  debug : Option Bool
  customStates : Option (List String)
  autoSetAway : Option Bool
  awayTimeout : Option Nat
  deriving Repr, DecidableEq

/-- `updateConfig(newConfig)`: the non-validating merge
`this.config = { ...this.config, ...newConfig }`. -/
def updateConfig (s : ServiceState) (u : ConfigUpdate) : ServiceState :=
  { s with config :=
    { firebaseApp := u.firebaseApp.getD s.config.firebaseApp
      database := u.database.getD s.config.database
      auth := u.auth.getD s.config.auth
      databasePath := u.databasePath.getD s.config.databasePath
      offlineTimeout := u.offlineTimeout.getD s.config.offlineTimeout
      retryInterval := u.retryInterval.getD s.config.retryInterval
      maxRetries := u.maxRetries.getD s.config.maxRetries
      debug := u.debug.getD s.config.debug
      customStates := u.customStates.getD s.config.customStates
      autoSetAway := u.autoSetAway.getD s.config.autoSetAway
      awayTimeout := u.awayTimeout.getD s.config.awayTimeout } }

/-- Settled value of the promise produced by `_initialize()`: the validation
and services checks; subscribing to auth and app-state notifications is
modelled as always succeeding. -/
def initializeResult (c : ResolvedConfig) : Except PresenceError Unit :=
  match FirebaseValidator.validateConfig c with
  | .error e => .error e
  | .ok _ =>
    if !c.auth || !c.database then
      .error ⟨"Firebase services not ready", "SERVICES_NOT_READY", false⟩
    else
      .ok ()

/-- The field initializers of the `PresenceService` class. -/
def initialServiceState (c : ResolvedConfig) : ServiceState where
  config := c
  userRef := false
  connectedRef := false
  connectedListener := false
  connectionStatus := ⟨false, none, 0⟩
  currentUser := none
  authSubscribed := false
  appStateSubscribed := false
  initialized := false
  initPromise := none
  setupInProgress := false
  currentSetupUid := none
  retryTimeout := none
  awayTimeout := none
  currentPresenceState := "offline"

/-- Outcome of evaluating `new PresenceService(config)`.  `threwSynchronously`
is the error escaping the constructor call itself, if any; `initOutcome` is
the settled value of the promise returned by the `initialize()` call the
constructor makes (and does not await). -/
structure ConstructResult where
  threwSynchronously : Option PresenceError
  state : ServiceState
  initOutcome : Except PresenceError Unit
  deriving Repr, DecidableEq

/-- `new PresenceService(config)`: merges the defaults and calls
`initialize()`.  `initialize()` and `_initialize()` are `async`, so the
validation throw inside `_initialize` rejects the returned promise instead of
propagating to the constructor: the constructor itself completes normally for
every input.  On a rejected initialization the catch block resets
`initialized` and nulls `this.initPromise` — but that nulling happens inside
the synchronous body of the `_initialize()` call, before `initialize()`'s own
assignment `this.initPromise = this._initialize()` stores the rejected
promise, so after construction the field holds the memoized rejection and
later `initialize()` calls return it without re-running validation. -/
def constructPresenceService (input : PresenceConfigInput) : ConstructResult :=
  let c := mergeDefaults input
  let r := initializeResult c
  let base := initialServiceState c
  let st :=
    match r with
    | .ok _ =>
      { base with
          initialized := true
          initPromise := some (.ok ())
          authSubscribed := true
          appStateSubscribed := true }
    | .error e =>
      { base with initialized := false, initPromise := some (.error e) }
  ⟨none, st, r⟩

/-- The external events that can be delivered to a live service instance,
each carrying the store round-trip outcomes of the store calls it issues. -/
inductive Event where
  | authChange (user : Option String) (env : WriteOutcomes)
  | connChange (connected : Bool) (now : Nat) (env : WriteOutcomes)
  | connError
  | retryFire (env : WriteOutcomes)
  | awayFire (env : WriteOutcomes)
  | appStateChange (appState : String) (env : WriteOutcomes)
  | configUpdate (u : ConfigUpdate)
  | destroyCall
  deriving Repr, DecidableEq

/-- One event delivery.  Auth, connectivity and app-state events only reach
the service while the corresponding subscription is active, and a timer only
fires while its handle is pending (the JS runtime consumes the timeout on
fire; the stale id left in `this.awayTimeout` is behaviourally equivalent to
a cleared handle, since clearing a fired timer is a no-op).  The app-state
listener body additionally guards on `currentUser` and `userRef` before
delegating to `handleAppStateChange`. -/
def step (s : ServiceState) (e : Event) : ServiceState × List Action :=
  match e with
  | .authChange user env =>
    if s.authSubscribed then handleAuthStateChange s user env else (s, [])
  | .connChange connected now env =>
    if s.connectedListener then handleConnectionChange s connected now env else (s, [])
  | .connError =>
    if s.connectedListener then (handleConnectionError s, []) else (s, [])
  | .retryFire env =>
    if s.retryTimeout.isSome then retryTimerFire s env else (s, [])
  | .awayFire env =>
    if s.awayTimeout.isSome then awayTimerFire { s with awayTimeout := none } env else (s, [])
  | .appStateChange appState env =>
    if s.appStateSubscribed && s.currentUser.isSome && s.userRef then
      handleAppStateChange s appState env
    else
      (s, [])
  | .configUpdate u => (updateConfig s u, [])
  | .destroyCall => destroy s

/-- Delivers a list of events in order, accumulating the emitted actions. -/
def runEvents (s : ServiceState) : List Event → ServiceState × List Action
  | [] => (s, [])
  | e :: es =>
    let (s1, a1) := step s e
    let (s2, a2) := runEvents s1 es
    (s2, a1 ++ a2)

/-- The records registered via `onDisconnect(...).set(...)` among a list of
emitted actions. -/
def onDisconnectSets (acts : List Action) : List PresenceRecord :=
  acts.filterMap fun a =>
    match a with
    | .onDisconnectSet r => some r
    | _ => none

/-- A configuration input providing the three required handles and nothing
else. -/
def okInput : PresenceConfigInput :=
  ⟨true, true, true, none, none, none, none, none, none, none, none⟩

/-- `new PresenceService({})`: a configuration input with every field absent. -/
def emptyInput : PresenceConfigInput :=
  ⟨false, false, false, none, none, none, none, none, none, none, none⟩

/-- Store round-trips all succeed. -/
def envOk : WriteOutcomes := ⟨true, true⟩

/-- A service bound for user `"u"` that is online: the state reached after a
successful construction and a successful `setupPresence "u"`, written out
explicitly. -/
def sampleBoundState : ServiceState :=
  { initialServiceState (mergeDefaults okInput) with
      userRef := true
      connectedRef := true
      connectedListener := true
      currentUser := some "u"
      currentSetupUid := some "u"
      authSubscribed := true
      appStateSubscribed := true
      initialized := true
      initPromise := some (.ok ())
      awayTimeout := some 300000
      currentPresenceState := "online" }

/-- `sampleBoundState` after the user manually switched to `'busy'`. -/
def sampleBusyState : ServiceState :=
  { sampleBoundState with currentPresenceState := "busy" }

/-- A config update dropping the database handle (allowed: `updateConfig` is
a non-validating merge). -/
def dropDatabaseUpdate : ConfigUpdate :=
  ⟨none, some false, none, none, none, none, none, none, none, none, none⟩

/-- A trace driving `retryCount` past `maxRetries` with each external
callback delivered at most once per registration: successful setup for `"u"`;
`updateConfig` drops the database handle; one disconnected observation arms
the retry timer; each of the five timer fires re-runs `setupPresence`, which
now throws `DATABASE_UNAVAILABLE` before reaching `cleanup`, so
`handleSetupError` increments `retryCount` each round up to the ceiling 5;
finally the connected listener attached by the original setup — never
unsubscribed, because the failing setup rounds bail out before `cleanup` —
delivers its single error callback, incrementing `retryCount` to 6. -/
def retryOverflowTrace : List Event :=
  [.authChange (some "u") envOk,
   .configUpdate dropDatabaseUpdate,
   .connChange false 0 envOk,
   .retryFire envOk, .retryFire envOk, .retryFire envOk, .retryFire envOk, .retryFire envOk,
   .connError]

/-- Claim C1 (code_bug evidence): evaluating `new PresenceService({})` — a
configuration missing all three required handles — completes normally (no
synchronous throw); the `ConfigurationError` (`MISSING_FIREBASE_APP`) is only
the rejected settled value of the un-awaited initialization promise.  This
contradicts the claim (and the repository's own test, which expects
`new PresenceService({})` to throw). -/
theorem construct_missing_config_does_not_throw :
    (constructPresenceService emptyInput).threwSynchronously = none ∧
    (constructPresenceService emptyInput).initOutcome =
      .error ⟨"Firebase app is required", "MISSING_FIREBASE_APP", false⟩ ∧
    (constructPresenceService emptyInput).state.initialized = false :=
  ⟨rfl, rfl, rfl⟩

/-- Claim C2 (counterexample): the state reached by `retryOverflowTrace` has
`retryCount = 6` against the configured `maxRetries = 5`, because
`handleSetupError` and `handleConnectionError` increment `retryCount`
unconditionally and only the scheduling of a new timer is gated by the
ceiling — so `retryCount` does exceed the configured maximum in a reachable
state. -/
theorem retryCount_exceeds_maxRetries_cex :
    (runEvents (constructPresenceService okInput).state retryOverflowTrace).1.config.maxRetries
      = 5 ∧
    (runEvents (constructPresenceService okInput).state
        retryOverflowTrace).1.connectionStatus.retryCount = 6 :=
  ⟨rfl, rfl⟩

/-- Claim C2 (amended): once `retryCount` has reached `maxRetries`, the
schedule path is a complete no-op — in particular the pending retry-timer
handle is left exactly as it was, so an unset handle remains unset. -/
theorem scheduleRetry_at_ceiling_noop (s : ServiceState)
    (h : s.config.maxRetries ≤ s.connectionStatus.retryCount) :
    scheduleRetry s = s := by
  simp [scheduleRetry, h]

/-- Witness for `scheduleRetry_at_ceiling_noop` at a concrete state with
`retryCount = 7` against the default `maxRetries = 5`. -/
theorem scheduleRetry_at_ceiling_noop_witness :
    scheduleRetry
        { initialServiceState (mergeDefaults okInput) with connectionStatus := ⟨false, none, 7⟩ }
      = { initialServiceState (mergeDefaults okInput) with connectionStatus := ⟨false, none, 7⟩ } :=
  scheduleRetry_at_ceiling_noop
    { initialServiceState (mergeDefaults okInput) with connectionStatus := ⟨false, none, 7⟩ }
    (by decide)

/-- Claim C3: the retry delay is `min(baseDelay * 2 ^ attempt, 30000)` for
every attempt and base delay; with base 1000 the delays for attempts 0..4 are
1000, 2000, 4000, 8000, 16000, and attempt 5's raw value 32000 is capped to
30000. -/
theorem createRetryDelay_spec :
    (∀ n b : Nat, FirebaseValidator.createRetryDelay n b = min (b * 2 ^ n) 30000) ∧
    (List.range 5).map (fun n => FirebaseValidator.createRetryDelay n 1000) =
      [1000, 2000, 4000, 8000, 16000] ∧
    1000 * 2 ^ 5 = 32000 ∧
    FirebaseValidator.createRetryDelay 5 1000 = 30000 :=
  ⟨fun _ _ => rfl, by decide, by decide, by decide⟩

/-- Claim C9: when no `userRef` binding or no current user exists, the checks
at the top of `setPresenceState` return before validation, so the call is a
silent successful no-op for every requested state — including states outside
the allowed set — leaving the service untouched and issuing nothing. -/
theorem setPresenceState_silent_noop_without_binding (s : ServiceState) (st : String)
    (cd : Option String) (env : WriteOutcomes)
    (h : s.userRef = false ∨ s.currentUser = none) :
    setPresenceState s st cd env = (s, [], .ok ()) := by
  rcases h with h | h
  · simp [setPresenceState, h]
  · cases hr : s.userRef
    · simp [setPresenceState, hr]
    · simp [setPresenceState, hr, h]

/-- Witness for `setPresenceState_silent_noop_without_binding`: before any
identity binds, a request for the disallowed state `"bogus"` resolves as a
no-op instead of raising `INVALID_STATE`. -/
theorem setPresenceState_silent_noop_without_binding_witness :
    setPresenceState (initialServiceState (mergeDefaults okInput)) "bogus" none envOk =
      (initialServiceState (mergeDefaults okInput), [], .ok ()) :=
  setPresenceState_silent_noop_without_binding
    (initialServiceState (mergeDefaults okInput)) "bogus" none envOk (Or.inl rfl)

/-- Claim C4: for a bound session and an allowed state, a failed store write
makes `setPresenceState` reject with the `SET_STATE_FAILED` error wrapping
the underlying cause, while the in-memory current state has already been
optimistically set to the requested state and is not rolled back. -/
theorem setPresenceState_write_failure_no_rollback (s : ServiceState) (st : String)
    (cd : Option String) (env : WriteOutcomes)
    (hRef : s.userRef = true) (hUser : s.currentUser.isSome = true)
    (hAllowed : s.config.customStates.contains st = true)
    (hFail : env.setOk = false) :
    (setPresenceState s st cd env).2.2 =
      .error ⟨"Failed to set presence state", "SET_STATE_FAILED", true⟩ ∧
    (setPresenceState s st cd env).1.currentPresenceState = st := by
  cases hu : s.currentUser with
  | none => rw [hu] at hUser; simp at hUser
  | some uid =>
    have hmem : st ∈ s.config.customStates := by simpa using hAllowed
    simp [setPresenceState, hRef, hu, hmem, hFail]

/-- Witness for `setPresenceState_write_failure_no_rollback`: at the bound
online sample state, a `'busy'` write whose store round-trip fails rejects
with `SET_STATE_FAILED` and leaves the current state at `'busy'`. -/
theorem setPresenceState_write_failure_no_rollback_witness :
    (setPresenceState sampleBoundState "busy" none ⟨false, true⟩).2.2 =
      .error ⟨"Failed to set presence state", "SET_STATE_FAILED", true⟩ ∧
    (setPresenceState sampleBoundState "busy" none ⟨false, true⟩).1.currentPresenceState =
      "busy" :=
  setPresenceState_write_failure_no_rollback sampleBoundState "busy" none ⟨false, true⟩
    rfl rfl (by decide) rfl

/-- Claim C5: a successful `setPresenceState` registers exactly one deferred
on-disconnect write — carrying the `'offline'` record — when the written
state is `'online'`, and registers none for any other allowed state. -/
theorem setPresenceState_onDisconnect_registration (s : ServiceState) (uid : String)
    (cd : Option String) (env : WriteOutcomes) (st : String)
    (hRef : s.userRef = true) (hUser : s.currentUser = some uid)
    (hAllowed : s.config.customStates.contains st = true)
    (hOk : env.setOk = true) (hOd : env.onDisconnectOk = true) :
    (setPresenceState s st cd env).2.2 = .ok () ∧
    onDisconnectSets (setPresenceState s st cd env).2.1 =
      (if st = "online" then [⟨"offline", uid, true, cd⟩] else []) := by
  have hmem : st ∈ s.config.customStates := by simpa using hAllowed
  by_cases ho : st = "online"
  · subst ho
    simp [setPresenceState, onDisconnectSets, hRef, hUser, hmem, hOk, hOd]
  · simp [setPresenceState, onDisconnectSets, hRef, hUser, hmem, hOk, hOd, ho]

/-- Witness for `setPresenceState_onDisconnect_registration`: at the bound
sample state, going `'online'` registers exactly the `'offline'` on-disconnect
record, while switching to `'busy'` registers none. -/
theorem setPresenceState_onDisconnect_registration_witness :
    ((setPresenceState sampleBoundState "online" none envOk).2.2 = .ok () ∧
      onDisconnectSets (setPresenceState sampleBoundState "online" none envOk).2.1 =
        (if "online" = "online" then [⟨"offline", "u", true, none⟩] else [])) ∧
    ((setPresenceState sampleBoundState "busy" none envOk).2.2 = .ok () ∧
      onDisconnectSets (setPresenceState sampleBoundState "busy" none envOk).2.1 =
        (if "busy" = "online" then [⟨"offline", "u", true, none⟩] else [])) :=
  ⟨setPresenceState_onDisconnect_registration sampleBoundState "u" none envOk "online"
      rfl rfl (by decide) rfl rfl,
    setPresenceState_onDisconnect_registration sampleBoundState "u" none envOk "busy"
      rfl rfl (by decide) rfl rfl⟩

/-- Claim C6: given a binding and an identity (and a store accepting the
round-trips), `setPresenceState` succeeds exactly for states in the
configured allowed set; a state outside the set rejects with the
`INVALID_STATE` error and leaves the whole service state — in particular the
in-memory current state — unchanged. -/
theorem setPresenceState_validation (s : ServiceState) (st : String)
    (cd : Option String) (env : WriteOutcomes)
    (hRef : s.userRef = true) (hUser : s.currentUser.isSome = true)
    (hOk : env.setOk = true) (hOd : env.onDisconnectOk = true) :
    (setPresenceState s st cd env).2.2 =
      (if s.config.customStates.contains st then .ok ()
       else .error ⟨"Invalid presence state: " ++ st, "INVALID_STATE", false⟩) ∧
    (setPresenceState s st cd env).1 =
      (if s.config.customStates.contains st then { s with currentPresenceState := st }
       else s) := by
  cases hu : s.currentUser with
  | none => rw [hu] at hUser; simp at hUser
  | some uid =>
    by_cases hmem : st ∈ s.config.customStates
    · by_cases ho : st = "online"
      · subst ho
        simp [setPresenceState, hRef, hu, hmem, hOk, hOd]
      · simp [setPresenceState, hRef, hu, hmem, hOk, hOd, ho]
    · simp [setPresenceState, hRef, hu, hmem]

/-- Witness for `setPresenceState_validation`: at the bound sample state the
allowed `'busy'` succeeds, while `'bogus'` rejects with `INVALID_STATE` and
leaves the state untouched. -/
theorem setPresenceState_validation_witness :
    ((setPresenceState sampleBoundState "busy" none envOk).2.2 =
        (if sampleBoundState.config.customStates.contains "busy" then .ok ()
         else .error ⟨"Invalid presence state: " ++ "busy", "INVALID_STATE", false⟩) ∧
      (setPresenceState sampleBoundState "busy" none envOk).1 =
        (if sampleBoundState.config.customStates.contains "busy" then
          { sampleBoundState with currentPresenceState := "busy" }
         else sampleBoundState)) ∧
    ((setPresenceState sampleBoundState "bogus" none envOk).2.2 =
        (if sampleBoundState.config.customStates.contains "bogus" then .ok ()
         else .error ⟨"Invalid presence state: " ++ "bogus", "INVALID_STATE", false⟩) ∧
      (setPresenceState sampleBoundState "bogus" none envOk).1 =
        (if sampleBoundState.config.customStates.contains "bogus" then
          { sampleBoundState with currentPresenceState := "bogus" }
         else sampleBoundState)) :=
  ⟨setPresenceState_validation sampleBoundState "busy" none envOk rfl rfl rfl rfl,
    setPresenceState_validation sampleBoundState "bogus" none envOk rfl rfl rfl rfl⟩

/-- Claim C7: for every connectivity observation at a bound session — from
any previous status, in either direction — the listeners are notified after
the status update with the updated snapshot.  A `true` observation sets
`isConnected`, stamps `lastConnected` with the current time and resets
`retryCount` to 0; when the previous observation was `false`, the writer's
current state is re-written to the store before the notification (the
on-disconnect registration, when the re-written state is `'online'` and the
write succeeds, is issued only after it); when already connected, the
observation only notifies.  A `false` observation keeps the previous
`lastConnected` and `retryCount` and only notifies. -/
theorem handleConnectionChange_spec (s : ServiceState) (uid : String) (now : Nat)
    (env : WriteOutcomes)
    (hRef : s.userRef = true) (hUser : s.currentUser = some uid)
    (hAllowed : s.config.customStates.contains s.currentPresenceState = true)
    (hNe : s.currentPresenceState ≠ "") :
    (handleConnectionChange s true now env).1.connectionStatus = ⟨true, some now, 0⟩ ∧
    (handleConnectionChange
        { s with connectionStatus := { s.connectionStatus with isConnected := false } }
        true now env).2 =
      [.storeWrite ⟨s.currentPresenceState, uid, true, none⟩,
        .notifyListeners ⟨true, some now, 0⟩] ++
      (if env.setOk && (s.currentPresenceState == "online") then
        [Action.onDisconnectSet ⟨"offline", uid, true, none⟩]
       else []) ∧
    (handleConnectionChange
        { s with connectionStatus := { s.connectionStatus with isConnected := true } }
        true now env).2 = [.notifyListeners ⟨true, some now, 0⟩] ∧
    (handleConnectionChange s false now env).1.connectionStatus =
      ⟨false, s.connectionStatus.lastConnected, s.connectionStatus.retryCount⟩ ∧
    (handleConnectionChange s false now env).2 =
      [.notifyListeners ⟨false, s.connectionStatus.lastConnected, s.connectionStatus.retryCount⟩] := by
  have hmem : s.currentPresenceState ∈ s.config.customStates := by simpa using hAllowed
  refine ⟨?_, ?_, ?_, ?_, ?_⟩ <;>
    cases hwc : s.connectionStatus.isConnected <;>
      cases hso : env.setOk <;> cases hod : env.onDisconnectOk <;>
        cases hob : s.currentPresenceState == "online" <;>
          (simp [handleConnectionChange, setPresenceState, scheduleRetry, hRef, hUser,
            hmem, hNe, hob, hso, hod, hwc]
           try (split <;> rfl))

/-- Witness for `handleConnectionChange_spec` at the bound `'online'` sample
state with a fully successful store. -/
theorem handleConnectionChange_spec_witness :
    (handleConnectionChange sampleBoundState true 42 envOk).1.connectionStatus =
      ⟨true, some 42, 0⟩ ∧
    (handleConnectionChange
        { sampleBoundState with connectionStatus :=
            { sampleBoundState.connectionStatus with isConnected := false } }
        true 42 envOk).2 =
      [.storeWrite ⟨sampleBoundState.currentPresenceState, "u", true, none⟩,
        .notifyListeners ⟨true, some 42, 0⟩] ++
      (if envOk.setOk && (sampleBoundState.currentPresenceState == "online") then
        [Action.onDisconnectSet ⟨"offline", "u", true, none⟩]
       else []) ∧
    (handleConnectionChange
        { sampleBoundState with connectionStatus :=
            { sampleBoundState.connectionStatus with isConnected := true } }
        true 42 envOk).2 = [.notifyListeners ⟨true, some 42, 0⟩] ∧
    (handleConnectionChange sampleBoundState false 42 envOk).1.connectionStatus =
      ⟨false, sampleBoundState.connectionStatus.lastConnected,
        sampleBoundState.connectionStatus.retryCount⟩ ∧
    (handleConnectionChange sampleBoundState false 42 envOk).2 =
      [.notifyListeners ⟨false, sampleBoundState.connectionStatus.lastConnected,
        sampleBoundState.connectionStatus.retryCount⟩] :=
  handleConnectionChange_spec sampleBoundState "u" 42 envOk rfl rfl (by decide) (by decide)

/-- Claim C8: arming the idle timer is a complete no-op when `autoSetAway` is
false (and arms `config.awayTimeout` otherwise); on fire, the service
transitions to `'away'` — with the corresponding store write — exactly when
the current presence state at fire time is still `'online'`, and is otherwise
left untouched with no store call. -/
theorem awayTimer_spec (s : ServiceState) (uid : String) (env : WriteOutcomes)
    (hRef : s.userRef = true) (hUser : s.currentUser = some uid)
    (hAway : s.config.customStates.contains "away" = true) :
    setupAwayTimer s =
      (if s.config.autoSetAway then { s with awayTimeout := some s.config.awayTimeout }
       else s) ∧
    (awayTimerFire s env).1.currentPresenceState =
      (if s.currentPresenceState = "online" then "away" else s.currentPresenceState) ∧
    (awayTimerFire s env).2 =
      (if s.currentPresenceState = "online"
       then [Action.storeWrite ⟨"away", uid, true, none⟩] else []) := by
  have hmem : "away" ∈ s.config.customStates := by simpa using hAway
  refine ⟨?_, ?_, ?_⟩
  · by_cases ha : s.config.autoSetAway <;> simp [setupAwayTimer, ha]
  · by_cases ho : s.currentPresenceState = "online" <;>
      cases hso : env.setOk <;>
        simp [awayTimerFire, setPresenceState, hRef, hUser, hmem, ho, hso]
  · by_cases ho : s.currentPresenceState = "online" <;>
      cases hso : env.setOk <;>
        simp [awayTimerFire, setPresenceState, hRef, hUser, hmem, ho, hso]

/-- Witness for `awayTimer_spec`: fired at the bound `'online'` sample state
the timer writes `'away'`; fired at the `'busy'` variant it does nothing. -/
theorem awayTimer_spec_witness :
    (setupAwayTimer sampleBoundState =
        (if sampleBoundState.config.autoSetAway then
          { sampleBoundState with awayTimeout := some sampleBoundState.config.awayTimeout }
         else sampleBoundState) ∧
      (awayTimerFire sampleBoundState envOk).1.currentPresenceState =
        (if sampleBoundState.currentPresenceState = "online" then "away"
         else sampleBoundState.currentPresenceState) ∧
      (awayTimerFire sampleBoundState envOk).2 =
        (if sampleBoundState.currentPresenceState = "online"
         then [Action.storeWrite ⟨"away", "u", true, none⟩] else [])) ∧
    (setupAwayTimer sampleBusyState =
        (if sampleBusyState.config.autoSetAway then
          { sampleBusyState with awayTimeout := some sampleBusyState.config.awayTimeout }
         else sampleBusyState) ∧
      (awayTimerFire sampleBusyState envOk).1.currentPresenceState =
        (if sampleBusyState.currentPresenceState = "online" then "away"
         else sampleBusyState.currentPresenceState) ∧
      (awayTimerFire sampleBusyState envOk).2 =
        (if sampleBusyState.currentPresenceState = "online"
         then [Action.storeWrite ⟨"away", "u", true, none⟩] else [])) :=
  ⟨awayTimer_spec sampleBoundState "u" envOk rfl rfl (by decide),
    awayTimer_spec sampleBusyState "u" envOk rfl rfl (by decide)⟩

/-- Claim C10: every teardown path — `cleanup` itself, the sign-out branch of
`handleAuthStateChange`, `destroy`, and the rebinding `setupPresence` (which
runs `cleanup` first) — resets the connection status to disconnected with
`retryCount` 0 and notifies the registered listeners with that reset
snapshot, whatever the store's actual connectivity is at that moment. -/
theorem teardown_resets_and_notifies (s : ServiceState) (uid : String) (env : WriteOutcomes)
    (hUser : s.currentUser.isSome = true)
    (hSetup : s.setupInProgress = false)
    (hDb : s.config.database = true) :
    (cleanup s).1.connectionStatus = ⟨false, s.connectionStatus.lastConnected, 0⟩ ∧
    (cleanup s).2.getLast? =
      some (.notifyListeners ⟨false, s.connectionStatus.lastConnected, 0⟩) ∧
    (handleAuthStateChange s none env).1.connectionStatus =
      ⟨false, s.connectionStatus.lastConnected, 0⟩ ∧
    (handleAuthStateChange s none env).2.getLast? =
      some (.notifyListeners ⟨false, s.connectionStatus.lastConnected, 0⟩) ∧
    (destroy s).1.connectionStatus = ⟨false, s.connectionStatus.lastConnected, 0⟩ ∧
    (destroy s).2.getLast? =
      some (.notifyListeners ⟨false, s.connectionStatus.lastConnected, 0⟩) ∧
    Action.notifyListeners ⟨false, s.connectionStatus.lastConnected, 0⟩ ∈
      (setupPresence s uid env).2 := by
  cases hu : s.currentUser with
  | none => rw [hu] at hUser; simp at hUser
  | some v =>
    refine ⟨?_, ?_, ?_, ?_, ?_, ?_, ?_⟩ <;>
      cases hur : s.userRef <;>
        first
        | simp [cleanup, handleAuthStateChange, destroy, hu, hur]
        | (cases hso : env.setOk <;> cases hod : env.onDisconnectOk <;>
            by_cases ho : "online" ∈ s.config.customStates <;>
              simp [setupPresence, cleanup, setPresenceState, handleSetupError, scheduleRetry,
                hu, hur, hSetup, hDb, hso, hod, ho])

/-- Witness for `teardown_resets_and_notifies` at the bound sample state. -/
theorem teardown_resets_and_notifies_witness :
    (cleanup sampleBoundState).1.connectionStatus =
      ⟨false, sampleBoundState.connectionStatus.lastConnected, 0⟩ ∧
    (cleanup sampleBoundState).2.getLast? =
      some (.notifyListeners ⟨false, sampleBoundState.connectionStatus.lastConnected, 0⟩) ∧
    (handleAuthStateChange sampleBoundState none envOk).1.connectionStatus =
      ⟨false, sampleBoundState.connectionStatus.lastConnected, 0⟩ ∧
    (handleAuthStateChange sampleBoundState none envOk).2.getLast? =
      some (.notifyListeners ⟨false, sampleBoundState.connectionStatus.lastConnected, 0⟩) ∧
    (destroy sampleBoundState).1.connectionStatus =
      ⟨false, sampleBoundState.connectionStatus.lastConnected, 0⟩ ∧
    (destroy sampleBoundState).2.getLast? =
      some (.notifyListeners ⟨false, sampleBoundState.connectionStatus.lastConnected, 0⟩) ∧
    Action.notifyListeners ⟨false, sampleBoundState.connectionStatus.lastConnected, 0⟩ ∈
      (setupPresence sampleBoundState "v" envOk).2 :=
  teardown_resets_and_notifies sampleBoundState "v" envOk rfl rfl rfl

end Presence
